import Mathlib

/-
Verification of the blog-api repository: a shallow embedding of the
authentication, token-lifecycle and listing-cache subsystems
(app/utils/security.py, app/dependencies.py, app/routes/auth.py,
app/routes/posts.py, app/services/cache.py, app/services/auth_tokens.py),
with theorems settling the frozen claims about them.
-/

namespace BlogApi

/-- Claims payload of a decoded JWT, as produced by app/utils/security.py:
create_access_token puts sub and token_type="access"; create_refresh_token
puts sub, token_type="refresh" and a jti. Absent claims are modelled as
none (Python dict.get returns None). -/
structure Payload where
  sub : Option String
  token_type : String
  jti : Option String
deriving Repr, DecidableEq

/-- A presented bearer token. The jwt library is an external collaborator;
decode_token (app/utils/security.py lines 90-107) returns the payload when
the signature verifies and the token is unexpired, and None on signature
mismatch, structural corruption or expiry, without distinguishing the
three. We model a token by that observable contract: either it decodes to
a payload or it does not. -/
inductive Token where
  | valid (p : Payload)
  | invalid
deriving Repr, DecidableEq

/-- Embedding of app.utils.security.decode_token: payload on success,
none on any cryptographic failure (all failure causes collapsed). -/
def decode_token : Token → Option Payload
  | Token.valid p => some p
  | Token.invalid => none

/-- Model of the bcrypt digest produced by app.utils.security.hash_password.
The hasher is external (passlib); only the fact that a digest is derived
from the plaintext matters to the embedded control flow. -/
def hash_password (password : String) : String :=
  "bcrypt$" ++ password

/-- User row of app/models.py (id, unique email, unique username,
hashed_password). created_at is irrelevant to the claims about users. -/
structure User where
  id : Nat
  email : String
  username : String
  hashed_password : String
deriving Repr, DecidableEq

/-- Value of a decimal digit character. -/
def digitVal? (c : Char) : Option Nat :=
  if '0' ≤ c && c ≤ '9' then some (c.toNat - '0'.toNat) else none

/-- Accumulate the value of a digit run; none on any non-digit. -/
def digitsValAux : List Char → Nat → Option Nat
  | [], acc => some acc
  | c :: cs, acc =>
    match digitVal? c with
    | some d => digitsValAux cs (acc * 10 + d)
    | none => none

/-- Value of a non-empty all-digit character list. -/
def digitsVal? : List Char → Option Nat
  | [] => none
  | cs => digitsValAux cs 0

/-- Model of Python int(s) on the strings this code passes it: an optional
minus sign followed by decimal digits; None models the ValueError raised
on anything else. -/
def pyInt? (s : String) : Option Int :=
  match s.toList with
  | [] => none
  | '-' :: rest => (digitsVal? rest).map (fun n => -(n : Int))
  | cs => (digitsVal? cs).map (fun n => (n : Int))

/-- Outcome of resolving the current user in app/dependencies.py.
unauthenticated carries the HTTP 401 detail string; crash models an
uncaught Python exception (escapes as a 500, not a 401). -/
inductive AuthResult where
  | ok (u : User)
  | unauthenticated (detail : String)
  | crash (msg : String)
deriving Repr, DecidableEq

/-- Embedding of app.dependencies.get_current_user (lines 18-68).
HTTPBearer(auto_error=False) yields credentials=None when the request has
no Authorization header; the source reads credentials.credentials on line
29 BEFORE its credentials-is-None check on line 34, so an absent token
raises AttributeError (a crash), and the None check returning 401
"Not authenticated" is unreachable. A non-numeric sub likewise crashes at
int(user_id) on line 59. All other failures return 401. -/
def get_current_user (credentials : Option Token) (db : List User) : AuthResult :=
  match credentials with
  | none => AuthResult.crash "AttributeError: NoneType object has no attribute credentials"
  | some token =>
    match decode_token token with
    | none => AuthResult.unauthenticated "Could not validate credentials"
    | some payload =>
      match payload.sub with
      | none => AuthResult.unauthenticated "Could not validate credentials"
      | some s =>
        match pyInt? s with
        | none => AuthResult.crash "ValueError: invalid literal for int"
        | some uid =>
          match db.find? (fun u => (u.id : Int) == uid) with
          | none => AuthResult.unauthenticated "Could not validate credentials"
          | some u => AuthResult.ok u

/-- Registration request body (app/schemas UserCreate). -/
structure UserCreate where
  email : String
  username : String
  password : String
deriving Repr, DecidableEq

/-- Token pair response body (app/schemas TokenResponse). -/
structure TokenResponse where
  access_token : Token
  refresh_token : Token
  token_type : String
deriving Repr, DecidableEq

/-- Embedding of app.routes.auth.validate_password_strength (lines 52-78):
returns the (status, detail) of the HTTPException it raises when the
password is shorter than 8 characters, has no letter, or has no digit;
none when the password passes the policy. -/
def validate_password_strength (password : String) : Option (Nat × String) :=
  if password.length < 8 then
    some (400, "Password must be at least 8 characters")
  else if ¬ password.toList.any Char.isAlpha then
    some (400, "Password must contain at least one letter")
  else if ¬ password.toList.any Char.isDigit then
    some (400, "Password must contain at least one digit")
  else
    none

/-- Autoincrement id the database assigns to a freshly inserted User row. -/
def nextId (db : List User) : Nat :=
  (db.map User.id).foldr max 0 + 1

/-- Model of create_access_token on data with sub = str(uid): the minted
token decodes to sub, token_type="access" and no jti. -/
def mint_access (uid : Nat) : Token :=
  Token.valid ⟨some (toString uid), "access", none⟩

/-- Model of create_refresh_token on data with sub = str(uid): the minted
token decodes to sub, token_type="refresh" and the freshly generated jti,
which we pass in as a parameter standing for uuid4(). -/
def mint_refresh (uid : Nat) (jti : String) : Token :=
  Token.valid ⟨some (toString uid), "refresh", some jti⟩

/-- Embedding of app.routes.auth.register_user (lines 83-133). Returns the
HTTP outcome, the user table after the call, and the (jti, user id) pairs
handed to store_refresh_token. The route checks email uniqueness, then
username uniqueness, then hashes and inserts the user, mints the token
pair, and stores the refresh jti. It never invokes
validate_password_strength: no password-policy check runs on this path. -/
def register_user (req : UserCreate) (freshJti : String) (db : List User) :
    (Except (Nat × String) TokenResponse) × List User × List (String × Nat) :=
  match db.find? (fun u => u.email == req.email) with
  | some _ => (Except.error (400, "Email already registered"), db, [])
  | none =>
    match db.find? (fun u => u.username == req.username) with
    | some _ => (Except.error (400, "Username already registered"), db, [])
    | none =>
      let uid := nextId db
      let db_user : User := ⟨uid, req.email, req.username, hash_password req.password⟩
      let db2 := db ++ [db_user]
      let access_token := mint_access uid
      let refresh_token := mint_refresh uid freshJti
      match decode_token refresh_token with
      | none => (Except.error (500, "Invalid refresh token payload"), db2, [])
      | some payload =>
        if payload.token_type != "refresh" then
          (Except.error (500, "Invalid refresh token payload"), db2, [])
        else
          (Except.ok ⟨access_token, refresh_token, "bearer"⟩, db2,
            [(payload.jti.getD "", uid)])

/-- Python truthiness of an optional string: None and the empty string are
falsy (models the check if not jti or not user_id). -/
def truthy : Option String → Bool
  | none => false
  | some s => s != ""

/-- Operations issued against the refresh-token store
(app/services/auth_tokens.py): store inserts a jti with its user id,
revoke deletes one. -/
inductive StoreOp where
  | store (jti : String) (uid : Nat)
  | revoke (jti : String)
deriving Repr, DecidableEq

/-- Outcome of the refresh endpoint: a token pair, an HTTPException with
status and detail, or an uncaught exception. -/
inductive RefreshResult where
  | ok (resp : TokenResponse)
  | httpError (status : Nat) (detail : String)
  | crash (msg : String)
deriving Repr, DecidableEq

/-- Embedding of app.routes.auth.refresh_token_endpoint (lines 182-225).
activeJtis is the set of jtis currently present (unexpired, unrevoked) in
the refresh-token store, per is_refresh_token_active in
app/services/auth_tokens.py. The second component records every store or
revoke operation the endpoint issues; the source issues none. -/
def refresh_token_endpoint (body : Token) (activeJtis : List String) (db : List User) :
    RefreshResult × List StoreOp :=
  match decode_token body with
  | none => (RefreshResult.httpError 401 "Invalid or expired refresh token", [])
  | some payload =>
    if payload.token_type != "refresh" then
      (RefreshResult.httpError 401 "Invalid or expired refresh token", [])
    else if !(truthy payload.jti) || !(truthy payload.sub) then
      (RefreshResult.httpError 401 "Invalid or expired refresh token", [])
    else if !(activeJtis.contains (payload.jti.getD "")) then
      (RefreshResult.httpError 401 "Refresh token has been revoked", [])
    else
      match pyInt? (payload.sub.getD "") with
      | none => (RefreshResult.crash "ValueError: invalid literal for int", [])
      | some uid =>
        match db.find? (fun u => (u.id : Int) == uid) with
        | none => (RefreshResult.httpError 401 "User not found", [])
        | some u =>
          (RefreshResult.ok ⟨mint_access u.id, body, "bearer"⟩, [])

/-- Post row of app/models.py. created_at is modelled as a Nat timestamp
(the DateTime only matters through its ordering). -/
structure Post where
  id : Nat
  title : String
  content : String
  user_id : Nat
  created_at : Nat
  is_published : Bool
deriving Repr, DecidableEq

/-- Sort direction query parameter of list_posts. -/
inductive SortOrder where
  | asc
  | desc
deriving Repr, DecidableEq

/-- Cache backend state: the redis key space as an association list from
keys to the cached listing payloads (app/services/cache.py stores JSON
lists of serialized posts; we model the payload by its post content). -/
abbrev CacheState := List (String × List Post)

/-- Embedding of RedisCache.get restricted to listing payloads. -/
def cacheGet (c : CacheState) (k : String) : Option (List Post) :=
  (c.find? (fun e => e.1 == k)).map Prod.snd

/-- Embedding of RedisCache.set: bind k, replacing any previous entry. -/
def cacheSet (c : CacheState) (k : String) (v : List Post) : CacheState :=
  (k, v) :: c.filter (fun e => e.1 != k)

/-- Embedding of RedisCache.delete: remove the binding of k if any. -/
def cacheDelete (c : CacheState) (k : String) : CacheState :=
  c.filter (fun e => e.1 != k)

/-- Canonical feed cache key of app/routes/posts.py. -/
def POSTS_CACHE_KEY : String := "posts:list:main"

/-- Search cache key built in app/routes/posts.py line 98: the f-string
interpolates the constant "posts:search:" and then ":q=", yielding a
double colon. -/
def searchKey (q : String) : String := "posts:search:" ++ ":q=" ++ q

/-- Lower-cased character list of a string, for case-insensitive match. -/
def lowerList (s : String) : List Char := s.toList.map Char.toLower

/-- Contiguous-sublist test: true when q occurs as a contiguous segment
of s (including the empty q). -/
def containsSeg : List Char → List Char → Bool
  | q, [] => q.isEmpty
  | q, x :: xs => q.isPrefixOf (x :: xs) || containsSeg q xs

/-- Embedding of the SQL ilike with pattern %q%: case-insensitive
substring containment of q in s. -/
def ilikeContains (s q : String) : Bool := containsSeg (lowerList q) (lowerList s)

/-- Visibility filter of list_posts (app/routes/posts.py lines 111-134),
combining the is_published parameter with the caller identity. -/
def visibilityPred (is_published : Option Bool) (cur : Option User) (p : Post) : Bool :=
  match is_published, cur with
  | some false, none => p.is_published
  | some false, some u => !p.is_published && p.user_id == u.id
  | some true, _ => p.is_published
  | none, none => p.is_published
  | none, some u => p.is_published || p.user_id == u.id

/-- Insertion step for descending sort on created_at. -/
def insertByDesc (p : Post) : List Post → List Post
  | [] => [p]
  | x :: xs => if x.created_at ≤ p.created_at then p :: x :: xs else x :: insertByDesc p xs

/-- Insertion step for ascending sort on created_at. -/
def insertByAsc (p : Post) : List Post → List Post
  | [] => [p]
  | x :: xs => if p.created_at ≤ x.created_at then p :: x :: xs else x :: insertByAsc p xs

/-- Embedding of order_by(created_at) in the requested direction. -/
def sortByCreated : SortOrder → List Post → List Post
  | SortOrder.asc, l => l.foldr insertByAsc []
  | SortOrder.desc, l => l.foldr insertByDesc []

/-- Embedding of offset(skip).limit(limit). -/
def paginate (skip limit : Nat) (l : List Post) : List Post :=
  (l.drop skip).take limit

/-- Observable side effects of one list_posts call: cache keys read, cache
entries written, and whether the persistent store was queried. -/
structure ListEffects where
  cacheReads : List String
  cacheWrites : List (String × List Post)
  dbQueried : Bool
deriving Repr, DecidableEq

/-- Query section of list_posts (source lines 109-149), run only after
both cache probes miss: builds the visibility filter, applies the search
guard and filter, sorts and paginates. Returns none when the short-query
guard returns [] before the query ever executes against the store. -/
def query_posts (skip limit : Nat) (sort : SortOrder) (is_published : Option Bool)
    (q : Option String) (cur : Option User) (db : List Post) : Option (List Post) :=
  let base := db.filter (visibilityPred is_published cur)
  if truthy q then
    let s := q.getD ""
    if s.length < 3 then none
    else
      some (paginate skip limit (sortByCreated sort
        (base.filter (fun p => ilikeContains p.title s || ilikeContains p.content s))))
  else
    some (paginate skip limit (sortByCreated sort base))

/-- Embedding of app.routes.posts.list_posts (lines 69-161). The source
computes use_cache (canonical anonymous feed) and, separately, caches
anonymous default-window searches under a per-query key, probing the
search key first; on a double miss it runs the query and writes back to
whichever of the two cacheable shapes applies. -/
def use_cache_cond (skip limit : Nat) (sort : SortOrder) (is_published : Option Bool)
    (q : Option String) (cur : Option User) : Bool :=
  skip == 0 && limit == 10 && sort == SortOrder.desc &&
    is_published == none && cur == none && q == none

def search_cache_cond (skip limit : Nat) (sort : SortOrder)
    (q : Option String) (cur : Option User) : Bool :=
  truthy q && skip == 0 && limit == 10 && sort == SortOrder.desc && cur == none

def list_posts (skip limit : Nat) (sort : SortOrder) (is_published : Option Bool)
    (q : Option String) (cur : Option User) (db : List Post) (c : CacheState) :
    List Post × ListEffects :=
  let use_cache := use_cache_cond skip limit sort is_published q cur
  let sBranch := search_cache_cond skip limit sort q cur
  let skey := searchKey (q.getD "")
  let r1 : List String := if sBranch then [skey] else []
  match (if sBranch then cacheGet c skey else none) with
  | some payload => (payload, ⟨r1, [], false⟩)
  | none =>
    let r2 := r1 ++ (if use_cache then [POSTS_CACHE_KEY] else [])
    match (if use_cache then cacheGet c POSTS_CACHE_KEY else none) with
    | some cached => (cached, ⟨r2, [], false⟩)
    | none =>
      match query_posts skip limit sort is_published q cur db with
      | none => ([], ⟨r2, [], false⟩)
      | some posts =>
        if use_cache then (posts, ⟨r2, [(POSTS_CACHE_KEY, posts)], true⟩)
        else if sBranch then (posts, ⟨r2, [(skey, posts)], true⟩)
        else (posts, ⟨r2, [], true⟩)

/-- Post creation body (app/schemas PostCreate); the schema defaults
is_published to false. -/
structure PostCreate where
  title : String
  content : String
  is_published : Bool
deriving Repr, DecidableEq

/-- Default value of is_published in PostCreate. -/
def postCreateDefaultPublished : Bool := false

/-- Autoincrement id assigned to a freshly inserted Post row. -/
def nextPostId (db : List Post) : Nat :=
  (db.map Post.id).foldr max 0 + 1

/-- Embedding of app.routes.posts.create_post (lines 37-59): insert the
row, commit, then delete the canonical cache key before returning. now is
the created_at timestamp the database assigns. -/
def create_post (current_user : User) (pin : PostCreate) (now : Nat)
    (db : List Post) (c : CacheState) : Post × List Post × CacheState :=
  let p : Post := ⟨nextPostId db, pin.title, pin.content, current_user.id, now, pin.is_published⟩
  (p, db ++ [p], cacheDelete c POSTS_CACHE_KEY)

/-- Post update body (app/schemas PostUpdate): absent fields modelled as
none (model_dump(exclude_unset=True) skips them). -/
structure PostUpdate where
  title : Option String
  content : Option String
  is_published : Option Bool
deriving Repr, DecidableEq

/-- Apply the set fields of a PostUpdate to a row (the setattr loop). -/
def applyUpdate (pu : PostUpdate) (p : Post) : Post :=
  { p with title := pu.title.getD p.title,
           content := pu.content.getD p.content,
           is_published := pu.is_published.getD p.is_published }

/-- Outcome of a mutating post route. -/
inductive MutResult where
  | ok (p : Post)
  | deleted
  | httpError (status : Nat) (detail : String)
deriving Repr, DecidableEq

/-- Embedding of app.routes.posts.update_post (lines 208-241): 404 when
the id is absent, 403 when the caller does not own the row, otherwise
apply the update, commit, and delete the canonical cache key before
returning. On the error paths the cache is untouched. -/
def update_post (post_id : Nat) (pu : PostUpdate) (current_user : User)
    (db : List Post) (c : CacheState) : MutResult × List Post × CacheState :=
  match db.find? (fun p => p.id == post_id) with
  | none => (MutResult.httpError 404 "Post not found", db, c)
  | some p =>
    if p.user_id != current_user.id then
      (MutResult.httpError 403 "Not enough permissions", db, c)
    else
      let p2 := applyUpdate pu p
      (MutResult.ok p2, db.map (fun x => if x.id == post_id then p2 else x),
        cacheDelete c POSTS_CACHE_KEY)

/-- Embedding of app.routes.posts.delete_post (lines 251-279): 404 or 403
on the error paths with the cache untouched, otherwise remove the row,
commit, and delete the canonical cache key before returning. -/
def delete_post (post_id : Nat) (current_user : User)
    (db : List Post) (c : CacheState) : MutResult × List Post × CacheState :=
  match db.find? (fun p => p.id == post_id) with
  | none => (MutResult.httpError 404 "Post not found", db, c)
  | some p =>
    if p.user_id != current_user.id then
      (MutResult.httpError 403 "Not enough permissions", db, c)
    else
      (MutResult.deleted, db.filter (fun x => x.id != post_id),
        cacheDelete c POSTS_CACHE_KEY)

theorem cacheGet_delete (c : CacheState) (k : String) :
    cacheGet (cacheDelete c k) k = none := by
  unfold cacheGet cacheDelete
  rw [Option.map_eq_none', List.find?_eq_none]
  intro x hx
  rcases List.mem_filter.mp hx with ⟨hmem, hne⟩
  simp only [bne_iff_ne, ne_eq] at hne
  simp [hne]

theorem mem_insertByDesc (x p : Post) (l : List Post) :
    x ∈ insertByDesc p l ↔ x = p ∨ x ∈ l := by
  induction l with
  | nil => simp [insertByDesc]
  | cons y t ih =>
    simp only [insertByDesc]
    by_cases h : y.created_at ≤ p.created_at
    · rw [if_pos h]
      simp
    · rw [if_neg h]
      simp only [List.mem_cons, ih]
      tauto

theorem mem_insertByAsc (x p : Post) (l : List Post) :
    x ∈ insertByAsc p l ↔ x = p ∨ x ∈ l := by
  induction l with
  | nil => simp [insertByAsc]
  | cons y t ih =>
    simp only [insertByAsc]
    by_cases h : p.created_at ≤ y.created_at
    · rw [if_pos h]
      simp
    · rw [if_neg h]
      simp only [List.mem_cons, ih]
      tauto

theorem mem_sortByCreated (x : Post) (s : SortOrder) (l : List Post) :
    x ∈ sortByCreated s l ↔ x ∈ l := by
  cases s with
  | asc =>
    induction l with
    | nil => simp [sortByCreated]
    | cons y t ih =>
      simp only [sortByCreated, List.foldr_cons] at *
      rw [mem_insertByAsc, ih]
      simp
  | desc =>
    induction l with
    | nil => simp [sortByCreated]
    | cons y t ih =>
      simp only [sortByCreated, List.foldr_cons] at *
      rw [mem_insertByDesc, ih]
      simp

theorem mem_of_mem_paginate (x : Post) (skip limit : Nat) (l : List Post) :
    x ∈ paginate skip limit l → x ∈ l := by
  intro h
  exact List.mem_of_mem_drop (List.mem_of_mem_take h)

/-- Sentences of C1 state that register rejects any password shorter than
8 characters, or lacking a letter, or lacking a digit, failing fast with a
ValidationFailed outcome and with no side effects. The code defines
validate_password_strength with exactly that policy but the registration
path never calls it: registering with the one-character password x and a
fresh email and username succeeds, inserts the user row, mints a token
pair and stores the refresh jti, even though the policy checker itself
rejects that password. -/
theorem C1_register_skips_password_policy :
    validate_password_strength "x" =
      some (400, "Password must be at least 8 characters") ∧
    (register_user ⟨"a@b.c", "alice", "x"⟩ "jti-1" []).1 =
      Except.ok ⟨mint_access 1, mint_refresh 1 "jti-1", "bearer"⟩ ∧
    (register_user ⟨"a@b.c", "alice", "x"⟩ "jti-1" []).2.1 =
      [⟨1, "a@b.c", "alice", hash_password "x"⟩] ∧
    (register_user ⟨"a@b.c", "alice", "x"⟩ "jti-1" []).2.2 = [("jti-1", 1)] := by
  refine ⟨rfl, rfl, rfl, rfl⟩

/-- Sentences of C2 state that required session resolution yields either
the user of the token subject or the single Unauthenticated outcome, in
particular that an absent token yields Unauthenticated and never any
other error or crash. In the code, HTTPBearer(auto_error=False) passes
credentials=None when no token is presented, and get_current_user reads
credentials.credentials before its credentials-is-None guard, so the
absent-token case raises AttributeError (an internal error), making the
guard that would return 401 Not authenticated unreachable. -/
theorem C2_absent_token_crashes (db : List User) :
    get_current_user none db =
      AuthResult.crash "AttributeError: NoneType object has no attribute credentials" := by
  rfl

/-- Counterexample to C4: against a store holding the user alice with
email a@b.c, a registration colliding on email and one colliding on
username produce different messages, so the failure response discloses
which column collided. -/
theorem C4_counterexample :
    (register_user ⟨"a@b.c", "bob", "Passw0rd1"⟩ "j1"
        [⟨1, "a@b.c", "alice", "h"⟩]).1 =
      Except.error (400, "Email already registered") ∧
    (register_user ⟨"c@d.e", "alice", "Passw0rd1"⟩ "j2"
        [⟨1, "a@b.c", "alice", "h"⟩]).1 =
      Except.error (400, "Username already registered") ∧
    ("Email already registered" : String) ≠ "Username already registered" := by
  refine ⟨rfl, rfl, by decide⟩

/-- Amended C4: an email collision and a username collision fail with the
same outcome kind (HTTP 400 error), but the two messages differ - Email
already registered versus Username already registered - so the response
does disclose which column collided. -/
theorem C4_amended_collision_responses (db : List User) (r1 r2 : UserCreate)
    (j1 j2 : String)
    (hEmail : (db.find? (fun u => u.email == r1.email)).isSome = true)
    (hNoEmail : db.find? (fun u => u.email == r2.email) = none)
    (hUser : (db.find? (fun u => u.username == r2.username)).isSome = true) :
    (register_user r1 j1 db).1 = Except.error (400, "Email already registered") ∧
    (register_user r2 j2 db).1 = Except.error (400, "Username already registered") ∧
    ("Email already registered" : String) ≠ "Username already registered" := by
  refine ⟨?_, ?_, by decide⟩
  · unfold register_user
    rcases h : db.find? (fun u => u.email == r1.email) with _ | u
    · rw [h] at hEmail
      simp at hEmail
    · rw [h]
  · unfold register_user
    rw [hNoEmail]
    rcases h : db.find? (fun u => u.username == r2.username) with _ | u
    · rw [h] at hUser
      simp at hUser
    · rw [h]

/-- Witness for C4_amended_collision_responses at a concrete store with
one user colliding by email with the first request and by username with
the second. -/
theorem C4_amended_collision_responses_witness :
    (register_user ⟨"a@b.c", "bob", "Passw0rd1"⟩ "j1"
        [⟨1, "a@b.c", "alice", "h"⟩]).1 =
      Except.error (400, "Email already registered") ∧
    (register_user ⟨"c@d.e", "alice", "Passw0rd1"⟩ "j2"
        [⟨1, "a@b.c", "alice", "h"⟩]).1 =
      Except.error (400, "Username already registered") ∧
    ("Email already registered" : String) ≠ "Username already registered" :=
  C4_amended_collision_responses [⟨1, "a@b.c", "alice", "h"⟩]
    ⟨"a@b.c", "bob", "Passw0rd1"⟩ ⟨"c@d.e", "alice", "Passw0rd1"⟩ "j1" "j2"
    (by decide) (by decide) (by decide)

/-- Claim C6: for every refresh call whose token decodes to type refresh
with a non-empty jti that is active in the store and a subject resolving
to an existing user, the endpoint returns a newly minted access token for
that subject, echoes the presented refresh token back unchanged, and
issues no store operation at all: no new jti is stored and the old jti is
not revoked. -/
theorem C6_refresh_mints_access_only (p : Payload) (active : List String)
    (db : List User) (u : User) (j s : String) (n : Int)
    (hty : p.token_type = "refresh")
    (hj : p.jti = some j) (hjne : j ≠ "")
    (hs : p.sub = some s) (hsne : s ≠ "")
    (hact : j ∈ active)
    (hn : pyInt? s = some n)
    (hfind : db.find? (fun x => (x.id : Int) == n) = some u) :
    refresh_token_endpoint (Token.valid p) active db =
      (RefreshResult.ok ⟨mint_access u.id, Token.valid p, "bearer"⟩, []) := by
  simp [refresh_token_endpoint, decode_token, hty, hj, hs, truthy, hjne, hsne,
    hact, hn, hfind]

/-- Witness for C6_refresh_mints_access_only at a concrete refresh token
for user 1 with active jti j. -/
theorem C6_refresh_mints_access_only_witness :
    refresh_token_endpoint (Token.valid ⟨some "1", "refresh", some "j"⟩) ["j"]
        [⟨1, "e", "u", "h"⟩] =
      (RefreshResult.ok
        ⟨mint_access 1, Token.valid ⟨some "1", "refresh", some "j"⟩, "bearer"⟩, []) :=
  C6_refresh_mints_access_only ⟨some "1", "refresh", some "j"⟩ ["j"]
    [⟨1, "e", "u", "h"⟩] ⟨1, "e", "u", "h"⟩ "j" "1" 1 rfl rfl (by decide) rfl
    (by decide) (by simp) rfl rfl

/-- Claim C7: a refresh call whose token fails to decode (bad signature,
expiry and malformed structure are collapsed by decode_token) gets the
generic 401 Invalid or expired refresh token, while a token that decodes
as a refresh token with jti and subject present but whose jti is absent
from the store gets the distinct 401 Refresh token has been revoked: the
same outcome family, with only the revoked case distinguishable. -/
theorem C7_refresh_failure_taxonomy (p : Payload) (active : List String)
    (db : List User) (j s : String)
    (hty : p.token_type = "refresh")
    (hj : p.jti = some j) (hjne : j ≠ "")
    (hs : p.sub = some s) (hsne : s ≠ "")
    (hinact : j ∉ active) :
    refresh_token_endpoint Token.invalid active db =
      (RefreshResult.httpError 401 "Invalid or expired refresh token", []) ∧
    refresh_token_endpoint (Token.valid p) active db =
      (RefreshResult.httpError 401 "Refresh token has been revoked", []) := by
  constructor
  · rfl
  · simp [refresh_token_endpoint, decode_token, hty, hj, hs, truthy, hjne, hsne,
      hinact]

/-- Witness for C7_refresh_failure_taxonomy: an undecodable token and a
structurally valid refresh token whose jti is not in the (empty) store. -/
theorem C7_refresh_failure_taxonomy_witness :
    refresh_token_endpoint Token.invalid [] [⟨1, "e", "u", "h"⟩] =
      (RefreshResult.httpError 401 "Invalid or expired refresh token", []) ∧
    refresh_token_endpoint (Token.valid ⟨some "1", "refresh", some "j"⟩) []
        [⟨1, "e", "u", "h"⟩] =
      (RefreshResult.httpError 401 "Refresh token has been revoked", []) :=
  C7_refresh_failure_taxonomy ⟨some "1", "refresh", some "j"⟩ []
    [⟨1, "e", "u", "h"⟩] "j" "1" rfl rfl (by decide) rfl (by decide) (by simp)

/-- Claim C10: get_current_user never inspects the token_type claim, so
any correctly signed unexpired token whose subject resolves to an
existing user authenticates the request as that user - the payload p here
is arbitrary in its token_type, so in particular a refresh token is
accepted wherever an access token is required. -/
theorem C10_session_resolution_ignores_token_type (p : Payload) (db : List User)
    (u : User) (s : String) (n : Int)
    (hs : p.sub = some s) (hn : pyInt? s = some n)
    (hfind : db.find? (fun x => (x.id : Int) == n) = some u) :
    get_current_user (some (Token.valid p)) db = AuthResult.ok u := by
  simp [get_current_user, decode_token, hs, hn, hfind]

/-- Witness for C10_session_resolution_ignores_token_type at a payload
shaped exactly like a refresh token (token_type refresh, jti present). -/
theorem C10_session_resolution_ignores_token_type_witness :
    get_current_user (some (Token.valid ⟨some "1", "refresh", some "j"⟩))
        [⟨1, "e", "u", "h"⟩] =
      AuthResult.ok ⟨1, "e", "u", "h"⟩ :=
  C10_session_resolution_ignores_token_type ⟨some "1", "refresh", some "j"⟩
    [⟨1, "e", "u", "h"⟩] ⟨1, "e", "u", "h"⟩ "1" 1 rfl rfl rfl

/-- Claim C8: a listing request with is_published=false returns, for an
anonymous caller, exactly the published posts (the parameter is silently
downgraded, not rejected), and for an authenticated caller exactly their
own unpublished posts - in both cases the sorted, paginated filter of the
store, with every returned post satisfying the respective predicate. -/
theorem C8_unpublished_filter_by_caller (skip limit : Nat) (sort : SortOrder)
    (db : List Post) (c : CacheState) (u : User) :
    (list_posts skip limit sort (some false) none none db c).1 =
      paginate skip limit (sortByCreated sort (db.filter (fun p => p.is_published))) ∧
    (list_posts skip limit sort (some false) none (some u) db c).1 =
      paginate skip limit (sortByCreated sort
        (db.filter (fun p => !p.is_published && p.user_id == u.id))) ∧
    (∀ p ∈ (list_posts skip limit sort (some false) none none db c).1,
      p.is_published = true) ∧
    (∀ p ∈ (list_posts skip limit sort (some false) none (some u) db c).1,
      p.is_published = false ∧ p.user_id = u.id) := by
  have hpub : ((some false : Option Bool) == none) = false := rfl
  have hanon : (list_posts skip limit sort (some false) none none db c).1 =
      paginate skip limit (sortByCreated sort (db.filter (fun p => p.is_published))) := by
    simp only [list_posts, use_cache_cond, search_cache_cond, truthy, query_posts,
      hpub, Bool.and_false, Bool.false_and, Bool.false_eq_true, if_false, Bool.and_self]
    rfl
  have hauth : (list_posts skip limit sort (some false) none (some u) db c).1 =
      paginate skip limit (sortByCreated sort
        (db.filter (fun p => !p.is_published && p.user_id == u.id))) := by
    simp only [list_posts, use_cache_cond, search_cache_cond, truthy, query_posts,
      hpub, Bool.and_false, Bool.false_and, Bool.false_eq_true, if_false, Bool.and_self]
    rfl
  refine ⟨hanon, hauth, ?_, ?_⟩
  · intro p hp
    rw [hanon] at hp
    have h1 := mem_of_mem_paginate p skip limit _ hp
    rw [mem_sortByCreated] at h1
    exact (List.mem_filter.mp h1).2
  · intro p hp
    rw [hauth] at hp
    have h1 := mem_of_mem_paginate p skip limit _ hp
    rw [mem_sortByCreated] at h1
    have h2 := (List.mem_filter.mp h1).2
    simp only [Bool.and_eq_true, Bool.not_eq_true', beq_iff_eq] at h2
    exact h2

/-- Witness for C8_unpublished_filter_by_caller on a two-post store: the
anonymous caller sees only the published post and the owner sees only
their unpublished draft. -/
theorem C8_unpublished_filter_by_caller_witness :
    (list_posts 0 10 SortOrder.desc (some false) none none
        [⟨1, "t1", "c1", 1, 1, true⟩, ⟨2, "t2", "c2", 1, 2, false⟩] []).1 =
      paginate 0 10 (sortByCreated SortOrder.desc
        (List.filter (fun p => p.is_published)
          [⟨1, "t1", "c1", 1, 1, true⟩, ⟨2, "t2", "c2", 1, 2, false⟩])) ∧
    (list_posts 0 10 SortOrder.desc (some false) none (some ⟨1, "e", "u", "h"⟩)
        [⟨1, "t1", "c1", 1, 1, true⟩, ⟨2, "t2", "c2", 1, 2, false⟩] []).1 =
      paginate 0 10 (sortByCreated SortOrder.desc
        (List.filter (fun p => !p.is_published && p.user_id == (1 : Nat))
          [⟨1, "t1", "c1", 1, 1, true⟩, ⟨2, "t2", "c2", 1, 2, false⟩])) ∧
    (∀ p ∈ (list_posts 0 10 SortOrder.desc (some false) none none
        [⟨1, "t1", "c1", 1, 1, true⟩, ⟨2, "t2", "c2", 1, 2, false⟩] []).1,
      p.is_published = true) ∧
    (∀ p ∈ (list_posts 0 10 SortOrder.desc (some false) none (some ⟨1, "e", "u", "h"⟩)
        [⟨1, "t1", "c1", 1, 1, true⟩, ⟨2, "t2", "c2", 1, 2, false⟩] []).1,
      p.is_published = false ∧ p.user_id = 1) :=
  C8_unpublished_filter_by_caller 0 10 SortOrder.desc
    [⟨1, "t1", "c1", 1, 1, true⟩, ⟨2, "t2", "c2", 1, 2, false⟩] []
    ⟨1, "e", "u", "h"⟩

/-- Claim C9: with a non-empty search query (hcm says the per-query search
cache entry is absent, which holds for every cache state the system itself
builds, since entries are only written for queries of length at least 3
after executing the same filter), a query shorter than 3 characters
returns the empty list without querying the persistent store, and a query
of length at least 3 returns the sorted paginated posts whose title or
content contains the query as a case-insensitive substring, every
returned post matching. -/
theorem C9_search_semantics (skip limit : Nat) (sort : SortOrder)
    (ispub : Option Bool) (cur : Option User) (db : List Post) (c : CacheState)
    (s : String) (hne : s ≠ "") (hcm : cacheGet c (searchKey s) = none) :
    (s.length < 3 →
      (list_posts skip limit sort ispub (some s) cur db c).1 = [] ∧
      (list_posts skip limit sort ispub (some s) cur db c).2.dbQueried = false) ∧
    (3 ≤ s.length →
      (list_posts skip limit sort ispub (some s) cur db c).1 =
        paginate skip limit (sortByCreated sort
          ((db.filter (visibilityPred ispub cur)).filter
            (fun p => ilikeContains p.title s || ilikeContains p.content s))) ∧
      ∀ p ∈ (list_posts skip limit sort ispub (some s) cur db c).1,
        (ilikeContains p.title s || ilikeContains p.content s) = true) := by
  have ht : truthy (some s) = true := by simp [truthy, hne]
  have hqn : ((some s : Option String) == none) = false := rfl
  have hucf : use_cache_cond skip limit sort ispub (some s) cur = false := by
    simp [use_cache_cond, hqn]
  constructor
  · intro hlen
    have hqp : query_posts skip limit sort ispub (some s) cur db = none := by
      simp [query_posts, ht, hlen]
    by_cases hs : search_cache_cond skip limit sort (some s) cur = true
    · constructor
      · simp [list_posts, hs, hucf, hcm, hqp]
      · simp [list_posts, hs, hucf, hcm, hqp]
    · constructor
      · simp [list_posts, hs, hucf, hqp]
      · simp [list_posts, hs, hucf, hqp]
  · intro hlen
    have hnl : ¬ s.length < 3 := Nat.not_lt.mpr hlen
    have hqp : query_posts skip limit sort ispub (some s) cur db =
        some (paginate skip limit (sortByCreated sort
          ((db.filter (visibilityPred ispub cur)).filter
            (fun p => ilikeContains p.title s || ilikeContains p.content s)))) := by
      simp [query_posts, ht, hnl]
    have hres : (list_posts skip limit sort ispub (some s) cur db c).1 =
        paginate skip limit (sortByCreated sort
          ((db.filter (visibilityPred ispub cur)).filter
            (fun p => ilikeContains p.title s || ilikeContains p.content s))) := by
      by_cases hs : search_cache_cond skip limit sort (some s) cur = true
      · simp [list_posts, hs, hucf, hcm, hqp]
      · simp [list_posts, hs, hucf, hqp]
    refine ⟨hres, ?_⟩
    intro p hp
    rw [hres] at hp
    have h1 := mem_of_mem_paginate p skip limit _ hp
    rw [mem_sortByCreated] at h1
    exact (List.mem_filter.mp h1).2

/-- Witness for C9_search_semantics: the two-character query ab returns []
without a store query, and the three-character query FOO matches the post
titled foobar case-insensitively and returns it. -/
theorem C9_search_semantics_witness :
    (("ab" : String).length < 3 ∧
      (list_posts 0 10 SortOrder.desc none (some "ab") none
        [⟨1, "foobar", "body", 1, 1, true⟩] []).1 = [] ∧
      (list_posts 0 10 SortOrder.desc none (some "ab") none
        [⟨1, "foobar", "body", 1, 1, true⟩] []).2.dbQueried = false) ∧
    (3 ≤ ("FOO" : String).length ∧
      (list_posts 0 10 SortOrder.desc none (some "FOO") none
        [⟨1, "foobar", "body", 1, 1, true⟩] []).1 =
        paginate 0 10 (sortByCreated SortOrder.desc
          ((List.filter (visibilityPred none none) [⟨1, "foobar", "body", 1, 1, true⟩]).filter
            (fun p => ilikeContains p.title "FOO" || ilikeContains p.content "FOO"))) ∧
      (list_posts 0 10 SortOrder.desc none (some "FOO") none
        [⟨1, "foobar", "body", 1, 1, true⟩] []).1 = [⟨1, "foobar", "body", 1, 1, true⟩]) :=
  ⟨⟨by decide,
    (C9_search_semantics 0 10 SortOrder.desc none none
      [⟨1, "foobar", "body", 1, 1, true⟩] [] "ab" (by decide) rfl).1 (by decide)⟩,
   by decide,
   ((C9_search_semantics 0 10 SortOrder.desc none none
      [⟨1, "foobar", "body", 1, 1, true⟩] [] "FOO" (by decide) rfl).2 (by decide)).1,
   by decide⟩

/-- Canonical query shape of the post collection: default page window,
descending sort, no publication-state override, no search term. -/
def canonicalShape (skip limit : Nat) (sort : SortOrder) (ispub : Option Bool)
    (q : Option String) : Prop :=
  skip = 0 ∧ limit = 10 ∧ sort = SortOrder.desc ∧ ispub = none ∧ q = none

/-- Anonymous default-window search shape: a truthy search term with
default page window and descending sort (the publication-state override
is not constrained by the source for this branch). -/
def anonSearchShape (skip limit : Nat) (sort : SortOrder) (q : Option String) : Prop :=
  truthy q = true ∧ skip = 0 ∧ limit = 10 ∧ sort = SortOrder.desc

/-- Counterexample to C3: a request carrying the search term abc with
otherwise default parameters and an anonymous caller both serves a cached
payload (when the search key is populated) and writes a cache entry (when
it is not) - so a request whose parameters differ from the defaults by a
search term is cached, contradicting the claim that no request carrying a
search term is ever cached. -/
theorem C3_counterexample :
    (list_posts 0 10 SortOrder.desc none (some "abc") none []
        [(searchKey "abc", [⟨99, "cached", "cached", 7, 42, true⟩])]).1 =
      [⟨99, "cached", "cached", 7, 42, true⟩] ∧
    (list_posts 0 10 SortOrder.desc none (some "abc") none []
        [(searchKey "abc", [⟨99, "cached", "cached", 7, 42, true⟩])]).2.cacheReads =
      [searchKey "abc"] ∧
    (list_posts 0 10 SortOrder.desc none (some "abc") none [] []).2.cacheWrites =
      [(searchKey "abc", [])] := by
  refine ⟨rfl, rfl, rfl⟩

/-- Amended C3: the cache is touched (read or written) by a listing
request only when the caller is anonymous and the request is either the
canonical shape (cached under the main key) or a default-window search
(cached under a per-query search key); in particular every authenticated
request, and every request with a non-default page window or sort,
bypasses the cache entirely. -/
theorem C3_amended_cache_touch_shapes (skip limit : Nat) (sort : SortOrder)
    (ispub : Option Bool) (q : Option String) (cur : Option User)
    (db : List Post) (c : CacheState)
    (h : (list_posts skip limit sort ispub q cur db c).2.cacheReads ≠ [] ∨
         (list_posts skip limit sort ispub q cur db c).2.cacheWrites ≠ []) :
    cur = none ∧
      (canonicalShape skip limit sort ispub q ∨ anonSearchShape skip limit sort q) := by
  by_cases hu : use_cache_cond skip limit sort ispub q cur = true
  · have hd := hu
    simp only [use_cache_cond, Bool.and_eq_true, beq_iff_eq] at hd
    simp only [canonicalShape, anonSearchShape]
    tauto
  · by_cases hs : search_cache_cond skip limit sort q cur = true
    · have hd := hs
      simp only [search_cache_cond, Bool.and_eq_true, beq_iff_eq] at hd
      simp only [canonicalShape, anonSearchShape]
      tauto
    · exfalso
      rw [Bool.not_eq_true] at hu hs
      rcases hqp : query_posts skip limit sort ispub q cur db with _ | posts
      · simp [list_posts, hu, hs, hqp] at h
      · simp [list_posts, hu, hs, hqp] at h

/-- Witness for C3_amended_cache_touch_shapes at the canonical anonymous
request on an empty cache, which reads the main key. -/
theorem C3_amended_cache_touch_shapes_witness :
    ((list_posts 0 10 SortOrder.desc none none none [] []).2.cacheReads ≠ [] ∨
     (list_posts 0 10 SortOrder.desc none none none [] []).2.cacheWrites ≠ []) ∧
    ((none : Option User) = none ∧
      (canonicalShape 0 10 SortOrder.desc none none ∨
        anonSearchShape 0 10 SortOrder.desc none)) :=
  ⟨Or.inl (by decide),
   C3_amended_cache_touch_shapes 0 10 SortOrder.desc none none none [] []
     (Or.inl (by decide))⟩

/-- Author of the C5 scenario posts. -/
def demoAuthor : User := ⟨1, "author@example.com", "author", "h"⟩

/-- Eleven strictly increasing creation timestamps. -/
def demoTimes : List Nat := [1, 2, 3, 4, 5, 6, 7, 8, 9, 10, 11]

/-- A cache state holding a stale pre-mutation payload under the
canonical key. -/
def demoStale : CacheState := [(POSTS_CACHE_KEY, [⟨99, "stale", "stale", 7, 0, true⟩])]

/-- Create one post per timestamp through create_post, threading the
store and the cache. -/
def createSeq (u : User) (pin : PostCreate) (times : List Nat)
    (st : List Post × CacheState) : List Post × CacheState :=
  times.foldl (fun st t =>
    let r := create_post u pin t st.1 st.2
    (r.2.1, r.2.2)) st

/-- Counterexample to C5 as stated: creating 11 posts with default
settings means is_published=false (the PostCreate schema default), so the
default anonymous listing - which shows only published posts - returns
the empty list, not the most recent 10 of the created posts, even though
all 11 rows are in the store. -/
theorem C5_counterexample :
    postCreateDefaultPublished = false ∧
    (createSeq demoAuthor ⟨"title", "content", postCreateDefaultPublished⟩ demoTimes
        ([], demoStale)).1.length = 11 ∧
    (list_posts 0 10 SortOrder.desc none none none
        (createSeq demoAuthor ⟨"title", "content", postCreateDefaultPublished⟩ demoTimes
          ([], demoStale)).1
        (createSeq demoAuthor ⟨"title", "content", postCreateDefaultPublished⟩ demoTimes
          ([], demoStale)).2).1 = [] := by
  refine ⟨rfl, rfl, rfl⟩

/-- Amended C5: every successful create, update or delete deletes the
canonical cache key before returning, so an immediate default anonymous
listing cannot serve the pre-mutation payload; and concretely, creating
11 published posts (is_published=true - the schema default false would
hide them from the anonymous listing) with increasing timestamps makes
the default listing return exactly the most recent 10 by descending
creation time. -/
theorem C5_amended_invalidation :
    (∀ (u : User) (pin : PostCreate) (now : Nat) (db : List Post) (c : CacheState),
      cacheGet (create_post u pin now db c).2.2 POSTS_CACHE_KEY = none) ∧
    (∀ (pid : Nat) (pu : PostUpdate) (u : User) (db : List Post) (c : CacheState) (p : Post),
      (update_post pid pu u db c).1 = MutResult.ok p →
      cacheGet (update_post pid pu u db c).2.2 POSTS_CACHE_KEY = none) ∧
    (∀ (pid : Nat) (u : User) (db : List Post) (c : CacheState),
      (delete_post pid u db c).1 = MutResult.deleted →
      cacheGet (delete_post pid u db c).2.2 POSTS_CACHE_KEY = none) ∧
    (list_posts 0 10 SortOrder.desc none none none
        (createSeq demoAuthor ⟨"t", "c", true⟩ demoTimes ([], demoStale)).1
        (createSeq demoAuthor ⟨"t", "c", true⟩ demoTimes ([], demoStale)).2).1 =
      [⟨11, "t", "c", 1, 11, true⟩, ⟨10, "t", "c", 1, 10, true⟩,
       ⟨9, "t", "c", 1, 9, true⟩, ⟨8, "t", "c", 1, 8, true⟩,
       ⟨7, "t", "c", 1, 7, true⟩, ⟨6, "t", "c", 1, 6, true⟩,
       ⟨5, "t", "c", 1, 5, true⟩, ⟨4, "t", "c", 1, 4, true⟩,
       ⟨3, "t", "c", 1, 3, true⟩, ⟨2, "t", "c", 1, 2, true⟩] := by
  refine ⟨?_, ?_, ?_, by decide⟩
  · intro u pin now db c
    unfold create_post
    exact cacheGet_delete c POSTS_CACHE_KEY
  · intro pid pu u db c p h
    rcases hf : db.find? (fun x => x.id == pid) with _ | p0
    · simp [update_post, hf] at h
    · by_cases ho : (p0.user_id != u.id) = true
      · simp [update_post, hf, ho] at h
      · rw [Bool.not_eq_true] at ho
        simp only [update_post, hf, ho, Bool.false_eq_true, if_false]
        exact cacheGet_delete c POSTS_CACHE_KEY
  · intro pid u db c h
    rcases hf : db.find? (fun x => x.id == pid) with _ | p0
    · simp [delete_post, hf] at h
    · by_cases ho : (p0.user_id != u.id) = true
      · simp [delete_post, hf, ho] at h
      · rw [Bool.not_eq_true] at ho
        simp only [delete_post, hf, ho, Bool.false_eq_true, if_false]
        exact cacheGet_delete c POSTS_CACHE_KEY

/-- Witness for C5_amended_invalidation: a successful update of post 1 by
its owner leaves the canonical key absent from the cache. -/
theorem C5_amended_invalidation_witness :
    (update_post 1 ⟨none, none, some true⟩ demoAuthor
        [⟨1, "t", "c", 1, 1, false⟩] demoStale).1 =
      MutResult.ok ⟨1, "t", "c", 1, 1, true⟩ ∧
    cacheGet (update_post 1 ⟨none, none, some true⟩ demoAuthor
        [⟨1, "t", "c", 1, 1, false⟩] demoStale).2.2 POSTS_CACHE_KEY = none :=
  ⟨by decide,
   C5_amended_invalidation.2.1 1 ⟨none, none, some true⟩ demoAuthor
     [⟨1, "t", "c", 1, 1, false⟩] demoStale ⟨1, "t", "c", 1, 1, true⟩ (by decide)⟩

end BlogApi
